import Mathlib

/-!
Verification of the Zendroid web client's real-time synchronization layer.

The definitions below are a shallow embedding of the TypeScript source:
* `ChatInterface.tsx` — the WebSocket event reducer (`handleWebSocketMessage`),
  transcript append (`addMessage`), outbound replies (`sendMessage`) and the
  `onmessage` parse boundary;
* `ResultsViewer.tsx` — the `useEffect` that folds inbound event payloads
  into the run-state fields (screenshot, status, currentTask, taskProgress);
* `TestRunner.tsx` — the local validation guards of `startTest` and the
  polling tick's response callback.

JavaScript truthiness on optional payload fields is made explicit through
`strTruthy` (a present, non-empty string) and `numTruthy` (a present,
non-zero number).
-/

namespace Zendroid

/-- An inbound event envelope as parsed from a WebSocket frame
(`Message` / the untyped `data : any` in `ChatInterface.tsx`); optional
fields are `Option`-valued, mirroring absent JSON keys. -/
structure InboundEvent where
  type : String
  message : Option String := none
  data : Option String := none
  status : Option String := none
  task : Option String := none
  task_number : Option Int := none
  total_tasks : Option Int := none
  timestamp : Int := 0
  deriving DecidableEq, Repr

/-- One transcript entry, as pushed by `addMessage` in `ChatInterface.tsx`:
`{ type, message, timestamp: Date.now() }`. -/
structure ChatEntry where
  kind : String
  text : String
  timestamp : Int
  deriving DecidableEq, Repr

/-- The `taskProgress` record of `ResultsViewer.tsx`. -/
structure TaskProgress where
  current : Int
  total : Int
  deriving DecidableEq, Repr

/-- The run-state owned by `ResultsViewer.tsx`: its four `useState` hooks
with their initial values as defaults. -/
structure RunState where
  screenshot : Option String := none
  status : String := "idle"
  currentTask : String := ""
  taskProgress : TaskProgress := ⟨0, 0⟩
  deriving DecidableEq, Repr

/-- The state owned by `ChatInterface.tsx`: the transcript (`messages`),
the input-gate flag (`isWaitingForInput`), the connection flag
(`isConnected`), the text box (`inputValue`), and whether the `ws` handle
is non-null (`wsOpen`). -/
structure ChatState where
  messages : List ChatEntry := []
  isWaitingForInput : Bool := false
  isConnected : Bool := false
  inputValue : String := ""
  wsOpen : Bool := false
  deriving DecidableEq, Repr

/-- An outbound envelope, `JSON.stringify({type: 'user_message', message})`. -/
structure OutboundEvent where
  type : String
  message : String
  deriving DecidableEq, Repr

/-- JavaScript truthiness of an optional string field: present and non-empty. -/
def strTruthy : Option String → Bool
  | none => false
  | some s => s ≠ ""

/-- JavaScript truthiness of an optional numeric field: present and non-zero. -/
def numTruthy : Option Int → Bool
  | none => false
  | some n => n ≠ 0

/-- The six event types narrated as `agent` entries by the switch in
`handleWebSocketMessage`. -/
def narratedTypes : List String :=
  ["status", "plan", "task_start", "action_plan", "action_executed", "task_complete"]

/-- Models `JSON.stringify(data)` on an event envelope, the fallback
narration text when `message` is falsy.  The exact rendering is not
load-bearing; what matters is that it is a concrete string derived from the
whole envelope (timestamp field included). -/
def jsonStringify (e : InboundEvent) : String :=
  "\x7b\"type\":\"" ++ e.type ++ "\""
    ++ (match e.message with | some m => ",\"message\":\"" ++ m ++ "\"" | none => "")
    ++ (match e.data with | some d => ",\"data\":\"" ++ d ++ "\"" | none => "")
    ++ (match e.status with | some s => ",\"status\":\"" ++ s ++ "\"" | none => "")
    ++ (match e.task with | some t => ",\"task\":\"" ++ t ++ "\"" | none => "")
    ++ (match e.task_number with | some n => ",\"task_number\":" ++ toString n | none => "")
    ++ (match e.total_tasks with | some n => ",\"total_tasks\":" ++ toString n | none => "")
    ++ ",\"timestamp\":" ++ toString e.timestamp ++ "\x7d"

/-- `data.message || fallback`: the fallback is used when `message` is
absent or the empty string (both falsy in JavaScript). -/
def messageOr (e : InboundEvent) (fallback : String) : String :=
  match e.message with
  | some m => if m = "" then fallback else m
  | none => fallback

/-- `${data.status}` inside the `complete` fallback template literal:
an absent field renders as the string "undefined". -/
def statusText : Option String → String
  | some s => s
  | none => "undefined"

/-- Models JavaScript's `String.prototype.trim` as used in
`inputValue.trim()`: strips leading and trailing whitespace characters. -/
def jsTrim (s : String) : String :=
  String.mk (((s.data.dropWhile Char.isWhitespace).reverse.dropWhile Char.isWhitespace).reverse)

/-- `addMessage(type, message)` from `ChatInterface.tsx`: appends
`{type, message, timestamp: Date.now()}`; `now` is the local clock value
`Date.now()` at append time. -/
def addMessage (now : Int) (kind text : String) (msgs : List ChatEntry) : List ChatEntry :=
  msgs ++ [⟨kind, text, now⟩]

/-- The switch of `handleWebSocketMessage` in `ChatInterface.tsx`, acting on
the chat-side state (transcript and input gate).  The parent update
`onStatusUpdate(data)` acts on `RunState` and is embedded separately as
`applyStatusUpdate`; the two touch disjoint state. -/
def handleWebSocketMessage (now : Int) (e : InboundEvent) (st : ChatState) : ChatState :=
  if narratedTypes.contains e.type then
    { st with messages := addMessage now "agent" (messageOr e (jsonStringify e)) st.messages }
  else if e.type = "screenshot" then
    st
  else if e.type = "error" then
    { st with messages := addMessage now "error" (messageOr e "Unknown error occurred") st.messages }
  else if e.type = "error_awaiting_input" then
    { st with
      messages := addMessage now "error" (messageOr e "Error occurred. What should I do?") st.messages,
      isWaitingForInput := true }
  else if e.type = "complete" then
    { st with
      messages := addMessage now "system"
        (messageOr e ("Test completed with status: " ++ statusText e.status)) st.messages,
      isWaitingForInput := false }
  else
    st

/-- The screenshot update of `ResultsViewer.tsx`'s effect: the dedicated
`screenshot` branch followed by the legacy fallback branch
(`currentData.data && currentData.type !== 'action_plan'`). -/
def updateScreenshot (e : InboundEvent) (scr : Option String) : Option String :=
  if e.type = "screenshot" ∧ strTruthy e.data then e.data
  else if strTruthy e.data ∧ e.type ≠ "action_plan" then e.data
  else scr

/-- The `useEffect` body of `ResultsViewer.tsx` applied to one inbound
payload: screenshot, then the type-independent `status` / `task` /
`task_number`+`total_tasks` updates, each guarded by JS truthiness. -/
def applyStatusUpdate (e : InboundEvent) (st : RunState) : RunState :=
  { st with
    screenshot := updateScreenshot e st.screenshot,
    status := if strTruthy e.status then e.status.getD st.status else st.status,
    currentTask := if strTruthy e.task then e.task.getD st.currentTask else st.currentTask,
    taskProgress :=
      if numTruthy e.task_number ∧ numTruthy e.total_tasks then
        ⟨(e.task_number).getD 0, (e.total_tasks).getD 0⟩
      else st.taskProgress }

/-- The `websocket.onmessage` handler: `JSON.parse` either yields an
envelope (delivered to `handleWebSocketMessage`, with `onStatusUpdate`
feeding `applyStatusUpdate`) or throws, in which case the error is only
logged and every piece of state is left as it was. -/
def onFrame (now : Int) (parsed : Option InboundEvent) (st : ChatState) (rs : RunState) :
    ChatState × RunState :=
  match parsed with
  | none => (st, rs)
  | some e => (handleWebSocketMessage now e st, applyStatusUpdate e rs)

/-- `sendMessage` from `ChatInterface.tsx`.  Returns the list of frames
transmitted on the socket together with the successor state.  The guard
`!inputValue.trim() || !ws || !isConnected` makes the call a pure no-op. -/
def sendMessage (now : Int) (st : ChatState) : List OutboundEvent × ChatState :=
  if jsTrim st.inputValue = "" ∨ st.wsOpen = false ∨ st.isConnected = false then
    ([], st)
  else
    ([⟨"user_message", st.inputValue⟩],
     { st with
       messages := addMessage now "user" st.inputValue st.messages,
       inputValue := "",
       isWaitingForInput := false })

/-- Folding a finite arrival-ordered sequence of successfully parsed
events through the reducer; each event is paired with the local clock value
at which it arrives. -/
def processEvents (events : List (Int × InboundEvent)) (st : ChatState) : ChatState :=
  events.foldl (fun s p => handleWebSocketMessage p.1 p.2 s) st

/-- Outcome of `startTest` in `TestRunner.tsx`: either a local validation
alert issued before any network activity, or the run-creation POST with its
body fields. -/
inductive StartOutcome where
  | validationError (msg : String)
  | request (apk_path test_prompt : String)
  deriving DecidableEq, Repr

/-- `startTest` from `TestRunner.tsx` (both variants share these guards):
`if (!apkPath) return alert(...)`, `if (!testPrompt) return alert(...)`,
then `axios.post('/test/start', {apk_path, test_prompt})`.  `apkPath` is
`string | null`, hence `Option String` with JS truthiness. -/
def startTest (apkPath : Option String) (testPrompt : String) : StartOutcome :=
  if strTruthy apkPath = false then .validationError "Please upload APK first"
  else if testPrompt = "" then .validationError "Please enter test instructions"
  else .request (apkPath.getD "") testPrompt

/-- The response callback of the polling tick in the legacy
`TestRunner.tsx`: `axios.get(...).then(res => onRunUpdate(res.data))` inside
`setInterval`.  `tornDown` records whether the owning effect was already
cleaned up (interval cleared, run reset or view removed) when the response
resolved; the callback contains no generation or teardown check and applies
the snapshot unconditionally. -/
def onPollResolve (tornDown : Bool) (resp : InboundEvent) (rs : RunState) : RunState :=
  applyStatusUpdate resp rs

/-! ### Helper lemmas -/

theorem narrated_cases {t : String} (h : t ∈ narratedTypes) :
    t = "status" ∨ t = "plan" ∨ t = "task_start" ∨ t = "action_plan"
      ∨ t = "action_executed" ∨ t = "task_complete" := by
  simpa [narratedTypes] using h

theorem narrated_ne {t : String} (h : t ∈ narratedTypes) :
    t ≠ "screenshot" ∧ t ≠ "error" ∧ t ≠ "error_awaiting_input" ∧ t ≠ "complete" := by
  rcases narrated_cases h with h | h | h | h | h | h <;> subst h <;>
    exact ⟨by decide, by decide, by decide, by decide⟩

/-- One reducer step changes the transcript length by exactly the per-event
contribution demanded by the spec's counting property. -/
theorem messages_length_step (now : Int) (e : InboundEvent) (st : ChatState) :
    (handleWebSocketMessage now e st).messages.length =
      st.messages.length
        + ((if narratedTypes.contains e.type then 1 else 0)
            + (if e.type = "error" ∨ e.type = "error_awaiting_input" then 1 else 0)
            + (if e.type = "complete" then 1 else 0)) := by
  by_cases h1 : e.type ∈ narratedTypes
  · obtain ⟨-, h2, h3, h4⟩ := narrated_ne h1
    simp [handleWebSocketMessage, addMessage, h1, h2, h3, h4]
  · by_cases h2 : e.type = "screenshot"
    · simp [handleWebSocketMessage, narratedTypes, h1, h2]
    · by_cases h3 : e.type = "error"
      · simp [handleWebSocketMessage, narratedTypes, addMessage, h1, h2, h3]
      · by_cases h4 : e.type = "error_awaiting_input"
        · simp [handleWebSocketMessage, narratedTypes, addMessage, h1, h2, h3, h4]
        · simp only [narratedTypes, List.mem_cons, List.not_mem_nil, or_false, not_or] at h1
          obtain ⟨n1, n2, n3, n4, n5, n6⟩ := h1
          by_cases h5 : e.type = "complete" <;>
            simp [handleWebSocketMessage, narratedTypes, addMessage,
              n1, n2, n3, n4, n5, n6, h2, h3, h4, h5]

theorem processEvents_messages_length (events : List (Int × InboundEvent)) (st : ChatState) :
    (processEvents events st).messages.length =
      st.messages.length
        + events.countP (fun p => narratedTypes.contains p.2.type)
        + events.countP (fun p => decide (p.2.type = "error" ∨ p.2.type = "error_awaiting_input"))
        + events.countP (fun p => decide (p.2.type = "complete")) := by
  induction events generalizing st with
  | nil => simp [processEvents]
  | cons p es ih =>
    have hstep := messages_length_step p.1 p.2 st
    simp only [processEvents, List.foldl_cons] at *
    rw [ih, List.countP_cons, List.countP_cons, List.countP_cons, hstep]
    by_cases h1 : narratedTypes.contains p.2.type <;>
      by_cases h2 : p.2.type = "error" ∨ p.2.type = "error_awaiting_input" <;>
        by_cases h3 : p.2.type = "complete" <;> simp [h1, h2, h3] <;> omega

/-! ### Claims -/

/-- Claim C1: starting from an empty transcript, the final transcript length
after a finite sequence of successfully parsed events equals the number of
narrated-type events (status, plan, task_start, action_plan,
action_executed, task_complete) plus the number of error /
error_awaiting_input events plus the number of complete events; screenshot
and unrecognized events append nothing. -/
theorem transcript_length_counts (events : List (Int × InboundEvent)) :
    (processEvents events {}).messages.length =
      events.countP (fun p => narratedTypes.contains p.2.type)
        + events.countP (fun p => decide (p.2.type = "error" ∨ p.2.type = "error_awaiting_input"))
        + events.countP (fun p => decide (p.2.type = "complete")) := by
  simpa using processEvents_messages_length events {}

/-- Claim C2, counterexample: an event of type `status` carrying a `data`
payload also replaces the screenshot (the legacy fallback branch of
`ResultsViewer.tsx`), so the screenshot is not replaced exactly on
`screenshot`-typed events. -/
theorem screenshot_replaced_by_status_event :
    (applyStatusUpdate { type := "status", data := some "abc" } {}).screenshot
      ≠ ({} : RunState).screenshot := by decide

/-- Claim C2 (amended): the screenshot field is replaced exactly when the
event carries a non-empty `data` payload and its type is not `action_plan`
(in particular on every `screenshot` event with data); all other events
leave it unchanged. -/
theorem screenshot_replacement_characterization (e : InboundEvent) (rs : RunState) :
    (applyStatusUpdate e rs).screenshot =
      if strTruthy e.data ∧ e.type ≠ "action_plan" then e.data else rs.screenshot := by
  by_cases hd : strTruthy e.data = true
  · by_cases ha : e.type = "action_plan"
    · simp [applyStatusUpdate, updateScreenshot, hd, ha]
    · by_cases hs : e.type = "screenshot" <;>
        simp [applyStatusUpdate, updateScreenshot, hd, ha, hs]
  · simp [applyStatusUpdate, updateScreenshot, hd]

/-- Claim C3 (code bug): the polling tick's response callback contains no
generation or teardown guard, so a response that resolves after the session
was torn down still mutates the run state — here a stale `passed` snapshot
overwrites the freshly reset `idle` status. -/
theorem stale_poll_response_mutates :
    (onPollResolve true { type := "", status := some "passed" } {}).status = "passed"
      ∧ ({} : RunState).status = "idle" := by
  exact ⟨by decide, rfl⟩

/-- Claim C5, counterexample: an event carrying `task_number = 0` together
with `total_tasks = 5` does not update `taskProgress` (zero is falsy in the
JavaScript guard), contradicting the claim that carrying both fields always
sets `taskProgress` to them. -/
theorem taskProgress_not_set_on_zero :
    (applyStatusUpdate
        { type := "task_start", task_number := some 0, total_tasks := some 5 } {}).taskProgress
      ≠ (⟨0, 5⟩ : TaskProgress) := by decide

/-- Claim C5 (amended): independently of the event type, a present
non-empty `status` sets the status field, a present non-empty `task` sets
`currentTask`, and present non-zero `task_number` and `total_tasks`
together set `taskProgress` to them. -/
theorem secondary_channel_updates (e : InboundEvent) (rs : RunState) :
    (∀ s, e.status = some s → s ≠ "" → (applyStatusUpdate e rs).status = s)
    ∧ (∀ tk, e.task = some tk → tk ≠ "" → (applyStatusUpdate e rs).currentTask = tk)
    ∧ (∀ n m, e.task_number = some n → e.total_tasks = some m → n ≠ 0 → m ≠ 0 →
        (applyStatusUpdate e rs).taskProgress = ⟨n, m⟩) := by
  refine ⟨?_, ?_, ?_⟩
  · intro s hs hne
    simp [applyStatusUpdate, strTruthy, hs, hne]
  · intro tk htk hne
    simp [applyStatusUpdate, strTruthy, htk, hne]
  · intro n m hn hm hne hme
    simp [applyStatusUpdate, numTruthy, hn, hm, hne, hme]

/-- Witness for the amended C5 at a concrete event of unrecognized type. -/
theorem secondary_channel_updates_witness :
    (applyStatusUpdate
        { type := "mystery", status := some "running", task := some "tap login",
          task_number := some 2, total_tasks := some 3 } {}).status = "running"
    ∧ (applyStatusUpdate
        { type := "mystery", status := some "running", task := some "tap login",
          task_number := some 2, total_tasks := some 3 } {}).currentTask = "tap login"
    ∧ (applyStatusUpdate
        { type := "mystery", status := some "running", task := some "tap login",
          task_number := some 2, total_tasks := some 3 } {}).taskProgress = ⟨2, 3⟩ :=
  ⟨(secondary_channel_updates
      { type := "mystery", status := some "running", task := some "tap login",
        task_number := some 2, total_tasks := some 3 } {}).1 "running" rfl (by decide),
   (secondary_channel_updates
      { type := "mystery", status := some "running", task := some "tap login",
        task_number := some 2, total_tasks := some 3 } {}).2.1 "tap login" rfl (by decide),
   (secondary_channel_updates
      { type := "mystery", status := some "running", task := some "tap login",
        task_number := some 2, total_tasks := some 3 } {}).2.2 2 3 rfl rfl
      (by decide) (by decide)⟩

/-- Claim C7: an inbound frame that fails to parse is dropped: the
transcript, the input gate, the run state and the connection flag are all
left exactly as they were. -/
theorem parse_failure_is_noop (now : Int) (st : ChatState) (rs : RunState) :
    (onFrame now none st rs).1.messages = st.messages
    ∧ (onFrame now none st rs).1.isWaitingForInput = st.isWaitingForInput
    ∧ (onFrame now none st rs).2 = rs
    ∧ (onFrame now none st rs).1.isConnected = st.isConnected :=
  ⟨rfl, rfl, rfl, rfl⟩

/-- Claim C8: with a missing/empty apk path or empty instructions,
`startTest` stops at a local validation alert and never issues the
run-creation request. -/
theorem startTest_local_validation (apkPath : Option String) (testPrompt : String)
    (h : apkPath = none ∨ apkPath = some "" ∨ testPrompt = "") :
    (∃ m, startTest apkPath testPrompt = StartOutcome.validationError m)
    ∧ ∀ a p, startTest apkPath testPrompt ≠ StartOutcome.request a p := by
  have hv : ∃ m, startTest apkPath testPrompt = StartOutcome.validationError m := by
    rcases h with h | h | h
    · subst h; exact ⟨"Please upload APK first", by simp [startTest, strTruthy]⟩
    · subst h; exact ⟨"Please upload APK first", by simp [startTest, strTruthy]⟩
    · subst h
      by_cases hapk : strTruthy apkPath = false
      · exact ⟨"Please upload APK first", by simp [startTest, hapk]⟩
      · exact ⟨"Please enter test instructions", by simp [startTest, hapk]⟩
  refine ⟨hv, ?_⟩
  obtain ⟨m, hm⟩ := hv
  intro a p hpq
  rw [hm] at hpq
  exact StartOutcome.noConfusion hpq

/-- Witness for C8 at an empty apk path and concrete instructions. -/
theorem startTest_local_validation_witness :
    (∃ m, startTest (some "") "open app" = StartOutcome.validationError m)
    ∧ ∀ a p, startTest (some "") "open app" ≠ StartOutcome.request a p :=
  startTest_local_validation (some "") "open app" (Or.inr (Or.inl rfl))

/-- Claim C10: sending while the text box holds only whitespace is a
complete no-op even on a connected session: nothing is transmitted and the
state (transcript and input gate included) is untouched. -/
theorem send_blank_input_noop (now : Int) (st : ChatState)
    (h : jsTrim st.inputValue = "") :
    sendMessage now st = ([], st) := by
  simp [sendMessage, h]

/-- Claim C4: per step (and hence over every sequence of reducer steps and
send operations) the input gate becomes `waiting` exactly on
`error_awaiting_input`, is cleared exactly by a `complete` event or a
successful send, and is otherwise untouched; in particular a repeated
`error_awaiting_input` while already waiting leaves it waiting. -/
theorem inputGate_transition_step (now : Int) (e : InboundEvent) (st : ChatState) :
    (handleWebSocketMessage now e st).isWaitingForInput =
      (if e.type = "error_awaiting_input" then true
       else if e.type = "complete" then false
       else st.isWaitingForInput)
    ∧ (sendMessage now st).2.isWaitingForInput =
      (if jsTrim st.inputValue ≠ "" ∧ st.wsOpen = true ∧ st.isConnected = true then false
       else st.isWaitingForInput) := by
  constructor
  · by_cases h1 : e.type ∈ narratedTypes
    · obtain ⟨-, -, h3, h4⟩ := narrated_ne h1
      simp [handleWebSocketMessage, h1, h3, h4]
    · by_cases h2 : e.type = "screenshot"
      · simp [handleWebSocketMessage, narratedTypes, h1, h2]
      · by_cases h3 : e.type = "error"
        · simp [handleWebSocketMessage, narratedTypes, h1, h2, h3]
        · by_cases h4 : e.type = "error_awaiting_input"
          · simp [handleWebSocketMessage, narratedTypes, h1, h2, h3, h4]
          · simp only [narratedTypes, List.mem_cons, List.not_mem_nil, or_false, not_or] at h1
            obtain ⟨n1, n2, n3, n4, n5, n6⟩ := h1
            by_cases h5 : e.type = "complete" <;>
              simp [handleWebSocketMessage, narratedTypes,
                n1, n2, n3, n4, n5, n6, h2, h3, h4, h5]
  · by_cases ht : jsTrim st.inputValue = ""
    · simp [sendMessage, ht]
    · cases hw : st.wsOpen <;> cases hc : st.isConnected <;>
        simp [sendMessage, ht, hw, hc]

/-- Claim C6: `sendMessage` on a disconnected session is a strict no-op
(nothing transmitted, state untouched); on a connected session with a live
socket and accepted (non-blank) text it transmits exactly one
`user_message` envelope carrying the text and appends exactly one `user`
entry. -/
theorem sendMessage_contract (now : Int) (st : ChatState) :
    (st.isConnected = false → sendMessage now st = ([], st))
    ∧ (st.isConnected = true → st.wsOpen = true → jsTrim st.inputValue ≠ "" →
        (sendMessage now st).1 = [⟨"user_message", st.inputValue⟩]
        ∧ (sendMessage now st).2.messages = st.messages ++ [⟨"user", st.inputValue, now⟩]) := by
  constructor
  · intro h
    simp [sendMessage, h]
  · intro hc hw ht
    simp [sendMessage, addMessage, hc, hw, ht]

/-- Witness for C6: the disconnected no-op and the connected transmission,
each at a concrete state. -/
theorem sendMessage_contract_witness :
    (sendMessage 0 { isConnected := false, inputValue := "hi", wsOpen := true }
      = ([], { isConnected := false, inputValue := "hi", wsOpen := true }))
    ∧ ((sendMessage 7 { isConnected := true, inputValue := "retry", wsOpen := true }).1
        = [⟨"user_message", "retry"⟩]
      ∧ (sendMessage 7 { isConnected := true, inputValue := "retry", wsOpen := true }).2.messages
        = [] ++ [⟨"user", "retry", 7⟩]) :=
  ⟨(sendMessage_contract 0
      { isConnected := false, inputValue := "hi", wsOpen := true }).1 rfl,
   (sendMessage_contract 7
      { isConnected := true, inputValue := "retry", wsOpen := true }).2 rfl rfl (by decide)⟩

/-- Every reducer step leaves the transcript untouched or appends a single
entry stamped with the local clock value. -/
theorem handleWS_messages_shape (now : Int) (e : InboundEvent) (st : ChatState) :
    (handleWebSocketMessage now e st).messages = st.messages
      ∨ ∃ k txt, (handleWebSocketMessage now e st).messages = st.messages ++ [⟨k, txt, now⟩] := by
  unfold handleWebSocketMessage addMessage
  repeat' split
  all_goals first
    | exact Or.inl rfl
    | exact Or.inr ⟨_, _, rfl⟩

/-- The transcript (as a list of entries) produced by a reducer step does
not depend on the envelope's own timestamp field, entry-timestamp-wise. -/
theorem handleWS_timestamps_ignore_envelope (now t : Int) (e : InboundEvent) (st : ChatState) :
    (handleWebSocketMessage now { e with timestamp := t } st).messages.map ChatEntry.timestamp
      = (handleWebSocketMessage now e st).messages.map ChatEntry.timestamp := by
  by_cases h1 : e.type ∈ narratedTypes
  · simp [handleWebSocketMessage, addMessage, h1]
  · by_cases h2 : e.type = "screenshot"
    · simp [handleWebSocketMessage, narratedTypes, h1, h2]
    · by_cases h3 : e.type = "error"
      · simp [handleWebSocketMessage, narratedTypes, addMessage, h1, h2, h3]
      · by_cases h4 : e.type = "error_awaiting_input"
        · simp [handleWebSocketMessage, narratedTypes, addMessage, h1, h2, h3, h4]
        · simp only [narratedTypes, List.mem_cons, List.not_mem_nil, or_false, not_or] at h1
          obtain ⟨n1, n2, n3, n4, n5, n6⟩ := h1
          by_cases h5 : e.type = "complete" <;>
            simp [handleWebSocketMessage, narratedTypes, addMessage,
              n1, n2, n3, n4, n5, n6, h2, h3, h4, h5]

/-- Claim C9: every transcript entry appended by the reducer or by send is
stamped with the local clock value at append time, and the envelope's own
timestamp field has no influence on entry timestamps. -/
theorem entry_timestamps_are_local (now : Int) (e : InboundEvent) (st : ChatState) :
    ((handleWebSocketMessage now e st).messages.map ChatEntry.timestamp
        = st.messages.map ChatEntry.timestamp
      ∨ (handleWebSocketMessage now e st).messages.map ChatEntry.timestamp
        = st.messages.map ChatEntry.timestamp ++ [now])
    ∧ (∀ t : Int,
        (handleWebSocketMessage now { e with timestamp := t } st).messages.map ChatEntry.timestamp
          = (handleWebSocketMessage now e st).messages.map ChatEntry.timestamp)
    ∧ ((sendMessage now st).2.messages.map ChatEntry.timestamp
        = st.messages.map ChatEntry.timestamp
      ∨ (sendMessage now st).2.messages.map ChatEntry.timestamp
        = st.messages.map ChatEntry.timestamp ++ [now]) := by
  refine ⟨?_, fun t => handleWS_timestamps_ignore_envelope now t e st, ?_⟩
  · rcases handleWS_messages_shape now e st with h | ⟨k, txt, h⟩ <;> simp [h]
  · unfold sendMessage addMessage
    split
    · exact Or.inl rfl
    · simp

/-- Witness for C10 on a connected, waiting session with a whitespace-only
text box. -/
theorem send_blank_input_noop_witness :
    sendMessage 0
        { isWaitingForInput := true, isConnected := true, inputValue := " \t ", wsOpen := true }
      = ([], { isWaitingForInput := true, isConnected := true,
               inputValue := " \t ", wsOpen := true }) :=
  send_blank_input_noop 0 _ (by decide)

end Zendroid
